import Mathlib

/-!
Shallow embedding of the frontend demo/optimize client of the Hunts Point
logistics platform (frontend/src/hooks/useOptimize.ts).  Numbers in the
TypeScript source are JavaScript numbers; they are modelled as `Nat` where the
source only holds small non-negative integers (ids, counts, slots) and as `ℚ`
where the source computes fractional values (percentages, pollution levels,
coordinates).  Strings are modelled as `String`.  `T | null` fields are
modelled as `Option T`.
-/

/-- One entry of `truck_assignments`: a (truck, hub, slot) triple. -/
structure TruckAssignment where
  truck_id : Nat
  hub_id : Nat
  slot_id : Nat
deriving DecidableEq

/-- One entry of the `hub_usage` table. -/
structure HubUsageItem where
  hub_id : Nat
  assigned : Nat
  capacity : Nat
  utilization_pct : ℚ
deriving DecidableEq

/-- One entry of the `congestion_per_time` table. -/
structure CongestionPerTimeItem where
  slot_id : Nat
  hour : Nat
  trucks : Nat
deriving DecidableEq

/-- One entry of the `pollution_per_zone` table. -/
structure PollutionPerZoneItem where
  zone_id : Nat
  pollution_level : ℚ
  truck_count : Nat
deriving DecidableEq

/-- One entry of the `hubs` list (geo position and usage of a hub). -/
structure HubMapItem where
  hub_id : Nat
  zone_id : Nat
  lon : ℚ
  lat : ℚ
  usage : Nat
deriving DecidableEq

/-- GeoJSON-style polygon geometry of a zone feature. -/
structure ZoneGeometry where
  gtype : String
  coordinates : List (List (List ℚ))
deriving DecidableEq

/-- Properties attached to a zone feature. -/
structure ZoneProps where
  zone_id : Nat
  pollution : ℚ
  congestion : ℚ
  is_green : Bool
deriving DecidableEq

/-- One zone feature of `zones_geojson`. -/
structure ZoneFeature where
  ftype : String
  geometry : ZoneGeometry
  properties : ZoneProps
deriving DecidableEq

/-- The `zones_geojson` feature collection. -/
structure FeatureCollection where
  ctype : String
  features : List ZoneFeature
deriving DecidableEq

/-- One grid cell of `artificial_map.zone_cells[z]`. -/
structure GridCellPt where
  i : Nat
  j : Nat
  x : ℚ
  y : ℚ
deriving DecidableEq

/-- One entry of `artificial_map.zone_meta`. -/
structure ZoneMeta where
  zone_id : Nat
  pollution : ℚ
  is_green : Bool
deriving DecidableEq

/-- One entry of `artificial_map.hubs` (grid placement of a hub). -/
structure GridHub where
  hub_id : Nat
  row : Nat
  col : Nat
  x : ℚ
  y : ℚ
deriving DecidableEq

/-- One waypoint of a rendered route in `artificial_map.routes`. -/
structure RoutePt where
  x : ℚ
  y : ℚ
deriving DecidableEq

/-- The `artificial_map` payload (synthetic grid rendering data). -/
structure ArtificialMapData where
  rows : Nat
  cols : Nat
  zone_cells : List (Nat × List GridCellPt)
  zone_meta : List ZoneMeta
  hubs : List GridHub
  routes : List (List RoutePt)
deriving DecidableEq

/-- One entry of the `deliveries` list. -/
structure Delivery where
  delivery_id : String
  truck_id : Nat
  driver_id : Nat
  driver_name : String
  from_zone_id : Nat
  from_address : String
  to_hub_id : Nat
  to_address : String
  scheduled_slot : Nat
  scheduled_time : String
  status : String
deriving DecidableEq

/-- One entry of `platform_summary.driver_tips`. -/
structure DriverTip where
  truck_id : Nat
  hub_id : Nat
  slot_id : Nat
  tip : String
deriving DecidableEq

/-- One entry of `platform_summary.incoming_by_zone`. -/
structure IncomingByZone where
  zone_id : Nat
  slot_id : Nat
  trucks : Nat
deriving DecidableEq

/-- One entry of `platform_summary.quiet_slots_by_zone`. -/
structure QuietSlots where
  zone_id : Nat
  suggested_slots : List Nat
deriving DecidableEq

/-- The `platform_summary` payload. -/
structure PlatformSummary where
  total_distance : ℚ
  total_congestion_cost : ℚ
  revenue : ℚ
  driver_tips : List DriverTip
  incoming_by_zone : List IncomingByZone
  quiet_slots_by_zone : List QuietSlots
  green_zones : List Nat
  n_trucks_assigned : Nat
deriving DecidableEq

/-- The full `OptimizeResponse` shape returned by the demo/optimize path. -/
structure OptimizeResponse where
  truck_assignments : List TruckAssignment
  hub_usage : List HubUsageItem
  congestion_per_time : List CongestionPerTimeItem
  pollution_per_zone : List PollutionPerZoneItem
  green_zones : List Nat
  zones_geojson : FeatureCollection
  hubs : List HubMapItem
  status : String
  objective_value : Option ℚ
  n_assigned : Nat
  artificial_map : Option ArtificialMapData
  platform_summary : Option PlatformSummary
  deliveries : Option (List Delivery)
  last_updated : Option String
deriving DecidableEq

/-- `String(n).padStart(2, '0')` for the small naturals the source feeds it. -/
def pad2 (n : Nat) : String :=
  if n < 10 then "0" ++ toString n else toString n

/-- `const drivers = [...]` in getFallbackDemo. -/
def drivers : List String :=
  ["Mike Smith", "Carlos Garcia", "James Chen", "Maria Rodriguez", "David Lee"]

/-- `const origins = [...]` in getFallbackDemo. -/
def origins : List String :=
  ["Bronx Produce Co.", "Hunts Point Terminal", "Fresh Direct Depot",
   "Food Center Drive", "Southern Blvd Warehouse"]

/-- `const hubs = [...]` in getFallbackDemo (the display names of the 4 hubs). -/
def hubNames : List String :=
  ["Hub 1 — Hunts Point Charging", "Hub 2 — Food Center",
   "Hub 3 — Oak Point", "Hub 4 — Lafayette"]

/-- `const statuses = [...]` in getFallbackDemo. -/
def statusWords : List String :=
  ["scheduled", "en_route", "at_hub", "completed"]

/-- `const truckAssignments = Array.from(\x7blength: 24\x7d, (_, i) => (\x7b
truck_id: i, hub_id: i % 4, slot_id: (i * 5) % 24 \x7d))`. -/
def truckAssignments : List TruckAssignment :=
  (List.range 24).map fun i =>
    { truck_id := i, hub_id := i % 4, slot_id := (i * 5) % 24 }

/-- `const deliveries = truckAssignments.map((a, i) => ...)`. -/
def demoDeliveries : List Delivery :=
  truckAssignments.enum.map fun p =>
    { delivery_id := "D-" ++ toString (1000 + p.1)
      truck_id := p.2.truck_id
      driver_id := p.2.truck_id
      driver_name := drivers.getD (p.1 % drivers.length) ""
      from_zone_id := p.1 % 5
      from_address := origins.getD (p.1 % origins.length) ""
      to_hub_id := p.2.hub_id
      to_address := hubNames.getD p.2.hub_id ""
      scheduled_slot := p.2.slot_id
      scheduled_time := pad2 p.2.slot_id ++ ":00"
      status := statusWords.getD (p.1 % statusWords.length) "" }

/-- `const hubUsage = [12, 8, 10, 6].map((assigned, hub_id) => ...)`. -/
def hubUsage : List HubUsageItem :=
  ([12, 8, 10, 6] : List Nat).enum.map fun p =>
    { hub_id := p.1, assigned := p.2, capacity := 20,
      utilization_pct := (100 * (p.2 : ℚ)) / 20 }

/-- `const congestionPerTime = Array.from(\x7blength: 24\x7d, (_, s) => ...)`;
the `|| (s % 4 === 0 ? 2 : 0)` of the source is the `if ... = 0` branch. -/
def congestionPerTime : List CongestionPerTimeItem :=
  (List.range 24).map fun s =>
    { slot_id := s, hour := s,
      trucks :=
        let c := (truckAssignments.filter (fun a => a.slot_id == s)).length
        if c = 0 then (if s % 4 = 0 then 2 else 0) else c }

/-- `const pollutionPerZone = Array.from(\x7blength: 10\x7d, (_, z) => ...)`. -/
def pollutionPerZone : List PollutionPerZoneItem :=
  (List.range 10).map fun z =>
    { zone_id := z,
      pollution_level := 1/5 + (3/5) * ((z : ℚ) / 10),
      truck_count := if z < 5 then 3 else 2 }

/-- `const features = Array.from(\x7blength: 10\x7d, (_, z) => ...)`. -/
def demoFeatures : List ZoneFeature :=
  (List.range 10).map fun z =>
    { ftype := "Feature"
      geometry := { gtype := "Polygon",
                    coordinates := [[[0, 0], [1, 0], [1, 1], [0, 1], [0, 0]]] }
      properties := { zone_id := z, pollution := 1/2, congestion := 2,
                      is_green := ([0, 2, 5] : List Nat).contains z } }

/-- `const hubList: HubMapItem[] = [...]`. -/
def hubList : List HubMapItem :=
  [{ hub_id := 0, zone_id := 0, lon := -(7388/100), lat := 4082/100, usage := 12 },
   { hub_id := 1, zone_id := 1, lon := -(73875/1000), lat := 4082/100, usage := 8 },
   { hub_id := 2, zone_id := 2, lon := -(7388/100), lat := 40815/1000, usage := 10 },
   { hub_id := 3, zone_id := 3, lon := -(73875/1000), lat := 40815/1000, usage := 6 }]

/-- `zoneCells` as built by `for (let z = 0; z < 10; z++) zoneCells[z] = [...]`. -/
def zoneCells : List (Nat × List GridCellPt) :=
  (List.range 10).map fun z => (z, [{ i := 0, j := 0, x := 1/2, y := 1/2 }])

/-- `const artificialMap: ArtificialMapData = \x7b ... \x7d`. -/
def artificialMap : ArtificialMapData :=
  { rows := 12
    cols := 12
    zone_cells := zoneCells
    zone_meta := pollutionPerZone.map fun p =>
      { zone_id := p.zone_id, pollution := p.pollution_level,
        is_green := ([0, 2, 5] : List Nat).contains p.zone_id }
    hubs := hubList.enum.map fun p =>
      { hub_id := p.2.hub_id, row := 2 + p.1, col := 2 + p.1,
        x := (5/2 + (p.1 : ℚ)) / 12, y := (5/2 + (p.1 : ℚ)) / 12 }
    routes := truckAssignments.map fun _ =>
      [{ x := 1/5, y := 1/5 }, { x := 1/2, y := 1/2 }, { x := 4/5, y := 4/5 }] }

/-- `const driverTips = truckAssignments.map((a) => ...)`. -/
def driverTips : List DriverTip :=
  truckAssignments.map fun a =>
    { truck_id := a.truck_id
      hub_id := a.hub_id
      slot_id := a.slot_id
      tip := "Charge at " ++ hubNames.getD a.hub_id "" ++ ", " ++
             pad2 a.slot_id ++ ":00. Off-peak — good for energy saving." }

/-- `const platformSummary: PlatformSummary = \x7b ... \x7d`. -/
def platformSummary : PlatformSummary :=
  { total_distance := 420
    total_congestion_cost := 85
    revenue := 3200
    driver_tips := driverTips
    incoming_by_zone := [{ zone_id := 0, slot_id := 6, trucks := 3 },
                         { zone_id := 1, slot_id := 10, trucks := 2 }]
    quiet_slots_by_zone := (List.range 10).map fun z =>
      { zone_id := z, suggested_slots := [0, 1, 2, 3, 4] }
    green_zones := [0, 2, 5]
    n_trucks_assigned := 24 }

/-- `getFallbackDemo`: the fallback demo response.  The one call-dependent
expression of the source, `new Date().toISOString()`, is passed in as `now`. -/
def getFallbackDemo (now : String) : OptimizeResponse :=
  { truck_assignments := truckAssignments
    hub_usage := hubUsage
    congestion_per_time := congestionPerTime
    pollution_per_zone := pollutionPerZone
    green_zones := [0, 2, 5]
    zones_geojson := { ctype := "FeatureCollection", features := demoFeatures }
    hubs := hubList
    status := "Optimal"
    objective_value := some (-10000)
    n_assigned := 24
    artificial_map := some artificialMap
    platform_summary := some platformSummary
    deliveries := some demoDeliveries
    last_updated := some now }

/-- The result shape of `fetchDemo`. -/
structure DemoResult where
  data : OptimizeResponse
  fromApi : Bool
deriving DecidableEq

/-- The possible outcomes of `fetchWithTimeout` + body parsing as observed by
`fetchDemo`: a 2xx response whose body parses to an `OptimizeResponse`, a 2xx
response whose body fails to parse, a non-ok HTTP status, a network failure of
the underlying fetch, or the 8000 ms timeout abort. -/
inductive FetchOutcome where
  | ok (body : OptimizeResponse)
  | okBadBody
  | httpError (detail : String)
  | networkFailure
  | timeoutAbort
deriving DecidableEq

/-- `fetchDemo`: its try block returns `\x7b data, fromApi: true \x7d` exactly when
the fetch resolved ok and the body parsed; every other outcome (non-ok status
throws, json failure throws, fetch rejection, abort) lands in the catch, which
returns `\x7b data: getFallbackDemo(), fromApi: false \x7d`. -/
def fetchDemo (now : String) : FetchOutcome → DemoResult
  | .ok body => { data := body, fromApi := true }
  | _ => { data := getFallbackDemo now, fromApi := false }

/-- Zone of a hub, looked up in the `hubList` geo table (`hubs located in that
zone`): `none` when no hub has that id. -/
def hubZoneOf (h : Nat) : Option Nat :=
  (hubList.find? (fun x => x.hub_id == h)).map (fun x => x.zone_id)

/-- Number of trucks incoming at slot `s` for hubs located in zone `z`,
counted over the demo assignment set. -/
def incomingTrucks (z s : Nat) : Nat :=
  (truckAssignments.filter
    (fun a => hubZoneOf a.hub_id == some z && a.slot_id == s)).length

/-!  Theorems settling the claims.  -/

/-- Claim C1: for every hub listed in the demo response's hub_usage and every
slot in [0,24), the number of truck_assignments at that (hub, slot) pair never
exceeds the capacity reported for the hub (24 trucks over 4 hubs of
capacity 20; no pair in fact holds more than one truck). -/
theorem C1_hub_slot_within_capacity (now : String) :
    ∀ hu ∈ (getFallbackDemo now).hub_usage, ∀ s ∈ List.range 24,
      ((getFallbackDemo now).truck_assignments.filter
        (fun a => a.hub_id == hu.hub_id && a.slot_id == s)).length ≤ hu.capacity := by
  show ∀ hu ∈ hubUsage, ∀ s ∈ List.range 24,
      (truckAssignments.filter
        (fun a => a.hub_id == hu.hub_id && a.slot_id == s)).length ≤ hu.capacity
  decide

/-- Witness for C1 at hub 0, slot 0 of a concrete call. -/
theorem C1_hub_slot_within_capacity_witness :
    ((getFallbackDemo "2024-01-01T00:00:00.000Z").truck_assignments.filter
      (fun a => a.hub_id == 0 && a.slot_id == 0)).length ≤ 20 :=
  C1_hub_slot_within_capacity "2024-01-01T00:00:00.000Z"
    { hub_id := 0, assigned := 12, capacity := 20,
      utilization_pct := (100 * ((12 : Nat) : ℚ)) / 20 }
    (List.Mem.head _) 0 (by decide)

/-- Claim C2: truck_id values in the demo response's truck_assignments are
pairwise distinct — every truck has at most one assignment. -/
theorem C2_truck_ids_distinct (now : String) :
    ((getFallbackDemo now).truck_assignments.map (fun a => a.truck_id)).Nodup := by
  show (truckAssignments.map (fun a => a.truck_id)).Nodup
  decide

/-- Claim C3: every congestion_per_time entry reports exactly the number of
truck_assignments at its slot (the slot map i ↦ (i*5) % 24 is a bijection on
[0,24), so every slot holds exactly one truck and the `|| 2` fallback of the
source is never taken). -/
theorem C3_congestion_counts (now : String) :
    ∀ c ∈ (getFallbackDemo now).congestion_per_time,
      c.trucks = ((getFallbackDemo now).truck_assignments.filter
        (fun a => a.slot_id == c.slot_id)).length := by
  show ∀ c ∈ congestionPerTime,
      c.trucks = (truckAssignments.filter (fun a => a.slot_id == c.slot_id)).length
  decide

/-- Witness for C3 at slot 0 of a concrete call. -/
theorem C3_congestion_counts_witness :
    (1 : Nat) = ((getFallbackDemo "2024-01-01T00:00:00.000Z").truck_assignments.filter
      (fun a => a.slot_id == (0 : Nat))).length :=
  C3_congestion_counts "2024-01-01T00:00:00.000Z"
    { slot_id := 0, hour := 0, trucks := 1 } (List.Mem.head _)

/-- Counterexample to claim C4 as stated: in the demo response, hub 0's
hub_usage entry reports assigned = 12, but only 6 of the 24 truck_assignments
have hub_id 0 — the assigned field is not the per-hub assignment count. -/
theorem C4_counterexample :
    ¬ (∀ hu ∈ (getFallbackDemo "2024-01-01T00:00:00.000Z").hub_usage,
        hu.assigned = ((getFallbackDemo "2024-01-01T00:00:00.000Z").truck_assignments.filter
          (fun a => a.hub_id == hu.hub_id)).length) := by
  decide

/-- Claim C4 (amended): the hub usage table reports utilization_pct equal to
100 * assigned / capacity for every hub, but the assigned values are the
hard-coded literals [12, 8, 10, 6] (capacity 20 each), not the per-hub
assignment counts, which equal 6 for each of the 4 hubs. -/
theorem C4_amended_hub_usage (now : String) :
    (getFallbackDemo now).hub_usage.map (fun hu => hu.assigned) = [12, 8, 10, 6] ∧
    (getFallbackDemo now).hub_usage.map (fun hu => hu.capacity) = [20, 20, 20, 20] ∧
    (getFallbackDemo now).hub_usage.map (fun hu => hu.utilization_pct) =
      (getFallbackDemo now).hub_usage.map
        (fun hu => 100 * (hu.assigned : ℚ) / (hu.capacity : ℚ)) ∧
    (List.range 4).map (fun h =>
        ((getFallbackDemo now).truck_assignments.filter
          (fun a => a.hub_id == h)).length) = [6, 6, 6, 6] := by
  refine ⟨?_, ?_, ?_, ?_⟩
  · show hubUsage.map (fun hu => hu.assigned) = [12, 8, 10, 6]
    decide
  · show hubUsage.map (fun hu => hu.capacity) = [20, 20, 20, 20]
    decide
  · rw [show (getFallbackDemo now).hub_usage = hubUsage from rfl]
    simp only [hubUsage, List.enum, List.enumFrom, List.map]
    norm_num
  · show (List.range 4).map (fun h =>
        (truckAssignments.filter (fun a => a.hub_id == h)).length) = [6, 6, 6, 6]
    decide

/-- Counterexample to claim C5 as stated: the demo response's status string is
none of the three lowercase tags. -/
theorem C5_counterexample :
    ¬ ((getFallbackDemo "2024-01-01T00:00:00.000Z").status = "optimal" ∨
       (getFallbackDemo "2024-01-01T00:00:00.000Z").status = "feasible" ∨
       (getFallbackDemo "2024-01-01T00:00:00.000Z").status = "infeasible") := by
  decide

/-- Claim C5 (amended): the demo response's status is the capitalized solver
tag "Optimal" (not a lowercase tag), and its objective_value is the non-null
value -10000 while 24 assignments are present — consistent with
objective_value being null only when no assignments were possible. -/
theorem C5_amended_status (now : String) :
    (getFallbackDemo now).status = "Optimal" ∧
    (getFallbackDemo now).objective_value = some (-10000) ∧
    (getFallbackDemo now).n_assigned = 24 ∧
    (getFallbackDemo now).truck_assignments.length = 24 := by
  refine ⟨rfl, rfl, rfl, ?_⟩
  show truckAssignments.length = 24
  decide

/-- Counterexample to claim C6 as stated: every zone's suggested_slots is the
literal [0, 1, 2, 3, 4]; for zone 0, suggested slot 0 has 1 incoming truck
while slot 5, which is not suggested, has 0 — so the suggested slots are not
the slots with the fewest incoming trucks. -/
theorem C6_counterexample :
    ((getFallbackDemo "2024-01-01T00:00:00.000Z").platform_summary.map
        (fun s => s.quiet_slots_by_zone)).getD [] =
      (List.range 10).map (fun z => { zone_id := z, suggested_slots := [0, 1, 2, 3, 4] }) ∧
    incomingTrucks 0 0 = 1 ∧ incomingTrucks 0 5 = 0 ∧
    ¬ (∀ q ∈ ((getFallbackDemo "2024-01-01T00:00:00.000Z").platform_summary.map
          (fun s => s.quiet_slots_by_zone)).getD [],
        ∀ s ∈ q.suggested_slots, ∀ t ∈ List.range 24, t ∉ q.suggested_slots →
          incomingTrucks q.zone_id s ≤ incomingTrucks q.zone_id t) := by
  decide

/-- Claim C6 (amended): quiet_slots_by_zone assigns every zone z in [0,10) the
fixed literal list [0, 1, 2, 3, 4], independent of the assignment set; it is
not the fewest-incoming-trucks ranking. -/
theorem C6_amended_quiet_slots (now : String) :
    ((getFallbackDemo now).platform_summary.map
        (fun s => s.quiet_slots_by_zone)).getD [] =
      (List.range 10).map (fun z => { zone_id := z, suggested_slots := [0, 1, 2, 3, 4] }) := by
  show platformSummary.quiet_slots_by_zone =
      (List.range 10).map (fun z => { zone_id := z, suggested_slots := [0, 1, 2, 3, 4] })
  decide

/-- Claim C7: every pollution_per_zone entry of the demo response has its
pollution_level in the closed interval [0, 1] (the values are
1/5 + (3/5)·(z/10) for z = 0..9, i.e. between 0.2 and 0.74). -/
theorem C7_pollution_bounds (now : String) :
    ∀ p ∈ (getFallbackDemo now).pollution_per_zone,
      0 ≤ p.pollution_level ∧ p.pollution_level ≤ 1 := by
  intro p hp
  rw [show (getFallbackDemo now).pollution_per_zone = pollutionPerZone from rfl] at hp
  simp only [pollutionPerZone, List.mem_map, List.mem_range] at hp
  obtain ⟨z, hz, rfl⟩ := hp
  have hz9 : (z : ℚ) ≤ 9 := by exact_mod_cast Nat.lt_succ_iff.mp hz
  constructor
  · positivity
  · nlinarith

/-- Witness for C7 at zone 0 of a concrete call. -/
theorem C7_pollution_bounds_witness :
    0 ≤ (1/5 + (3/5) * (((0 : Nat) : ℚ) / 10)) ∧
      (1/5 + (3/5) * (((0 : Nat) : ℚ) / 10)) ≤ 1 :=
  C7_pollution_bounds "2024-01-01T00:00:00.000Z"
    { zone_id := 0, pollution_level := 1/5 + (3/5) * (((0 : Nat) : ℚ) / 10),
      truck_count := 3 } (List.Mem.head _)

/-- Claim C8: the demo computation is deterministic — any two calls yield
element-wise equal truck_assignments, and the two responses agree on every
field other than last_updated (the one call-dependent field). -/
theorem C8_determinism (t1 t2 : String) :
    (getFallbackDemo t1).truck_assignments = (getFallbackDemo t2).truck_assignments ∧
    { getFallbackDemo t1 with last_updated := none } =
      { getFallbackDemo t2 with last_updated := none } :=
  ⟨rfl, rfl⟩

/-- Claim C9: fetchDemo is total over every fetch outcome and never propagates
an error: an ok response with a parsed body yields that body with
fromApi = true, and every other outcome (unparseable body, non-ok HTTP status,
network failure, timeout abort) yields the fallback demo response with
fromApi = false. -/
theorem C9_fetchDemo_total (now : String) (o : FetchOutcome) :
    (∀ body, o = FetchOutcome.ok body →
        fetchDemo now o = { data := body, fromApi := true }) ∧
    ((∀ body, o ≠ FetchOutcome.ok body) →
        fetchDemo now o = { data := getFallbackDemo now, fromApi := false }) := by
  cases o with
  | ok body => exact ⟨fun b h => by cases h; rfl, fun h => absurd rfl (h body)⟩
  | okBadBody => exact ⟨fun b h => (nomatch h), fun _ => rfl⟩
  | httpError detail => exact ⟨fun b h => (nomatch h), fun _ => rfl⟩
  | networkFailure => exact ⟨fun b h => (nomatch h), fun _ => rfl⟩
  | timeoutAbort => exact ⟨fun b h => (nomatch h), fun _ => rfl⟩

/-- Witness for C9 on the timeout-abort outcome of a concrete call. -/
theorem C9_fetchDemo_total_witness :
    fetchDemo "2024-01-01T00:00:00.000Z" FetchOutcome.timeoutAbort =
      { data := getFallbackDemo "2024-01-01T00:00:00.000Z", fromApi := false } :=
  (C9_fetchDemo_total "2024-01-01T00:00:00.000Z" FetchOutcome.timeoutAbort).2
    (fun _ h => nomatch h)

/-- Claim C10: parallel-array alignment of the demo response — deliveries,
artificial_map.routes and platform_summary.driver_tips each have exactly one
entry per truck_assignments element (length 24, equal to n_assigned and
n_trucks_assigned), and index-wise the deliveries carry the same truck, hub
and slot as the assignment at the same position. -/
theorem C10_parallel_alignment (now : String) :
    (getFallbackDemo now).deliveries = some demoDeliveries ∧
    (getFallbackDemo now).artificial_map = some artificialMap ∧
    (getFallbackDemo now).platform_summary = some platformSummary ∧
    demoDeliveries.length = (getFallbackDemo now).truck_assignments.length ∧
    artificialMap.routes.length = (getFallbackDemo now).truck_assignments.length ∧
    platformSummary.driver_tips.length = (getFallbackDemo now).truck_assignments.length ∧
    (getFallbackDemo now).truck_assignments.length = 24 ∧
    (getFallbackDemo now).n_assigned = 24 ∧
    platformSummary.n_trucks_assigned = 24 ∧
    demoDeliveries.map (fun d => d.truck_id) =
      (getFallbackDemo now).truck_assignments.map (fun a => a.truck_id) ∧
    demoDeliveries.map (fun d => d.to_hub_id) =
      (getFallbackDemo now).truck_assignments.map (fun a => a.hub_id) ∧
    demoDeliveries.map (fun d => d.scheduled_slot) =
      (getFallbackDemo now).truck_assignments.map (fun a => a.slot_id) := by
  refine ⟨rfl, rfl, rfl, ?_, ?_, ?_, ?_, rfl, rfl, ?_, ?_, ?_⟩
  · show demoDeliveries.length = truckAssignments.length
    decide
  · show artificialMap.routes.length = truckAssignments.length
    decide
  · show platformSummary.driver_tips.length = truckAssignments.length
    decide
  · show truckAssignments.length = 24
    decide
  · show demoDeliveries.map (fun d => d.truck_id) =
      truckAssignments.map (fun a => a.truck_id)
    decide
  · show demoDeliveries.map (fun d => d.to_hub_id) =
      truckAssignments.map (fun a => a.hub_id)
    decide
  · show demoDeliveries.map (fun d => d.scheduled_slot) =
      truckAssignments.map (fun a => a.slot_id)
    decide
